import Mathlib

/-!
Verification of the HPC thermal stability benchmark physics code.

Shallow embedding of the source modules over the real numbers:
  * src/physics/boiling_curves.py — FluidProperties, the Zuber, Kandlikar and
    Lienhard CHF correlations, the synthesized boiling curve and the safety
    margin classifier;
  * src/physics/marangoni_velocity.py — the Marangoni transport model;
  * src/verify_dryout.py — the coupled 1-D finite-difference thermal solver
    solve_marangoni_physics.

Python floats are modelled as real numbers; numpy power with a float exponent
is Real.rpow, with an integer exponent it is monoid power.  Python local
variables that may be read before assignment (NameError) are modelled with
Option.  Definitions follow the source line by line; spec-side restatements
used for refinement comparisons carry the word Spec in their name.
-/

open Classical

/-! ## Data model: src/physics/boiling_curves.py -/

/-- Container for thermophysical properties of a cooling fluid.
Mirrors the FluidProperties dataclass (boiling_curves.py lines 83-94). -/
structure FluidProperties where
  name : String
  density_l : ℝ
  density_v : ℝ
  surface_tension : ℝ
  h_vap : ℝ
  viscosity : ℝ
  k_thermal : ℝ
  cp : ℝ
  t_sat : ℝ

/-- Gravitational acceleration constant G = 9.81 (boiling_curves.py line 80). -/
noncomputable def G : ℝ := 9.81

/-- Zuber (1959) critical heat flux correlation
(boiling_curves.py lines 97-139).  No input validation is performed by the
source: the correlation is evaluated directly on the supplied fields. -/
noncomputable def calculate_zuber_chf (fluid : FluidProperties)
    (pressure_factor : ℝ) : ℝ :=
  let C_ZUBER : ℝ := 0.131
  let sigma := fluid.surface_tension
  let rho_l := fluid.density_l
  let rho_v := fluid.density_v
  let h_fg := fluid.h_vap
  let denominator := rho_v ^ (2 : ℕ)
  let bracket_term := sigma * G * (rho_l - rho_v) / denominator
  let velocity_scale := bracket_term ^ ((0.25 : ℝ))
  C_ZUBER * h_fg * rho_v * velocity_scale * pressure_factor

/-- The Novec 7100 property set used by the module demo
(boiling_curves.py lines 366-376). -/
noncomputable def novec : FluidProperties :=
  ⟨"Novec 7100", 1510, 9.9, 0.0136, 112000, 0.00058, 0.069, 1183, 61⟩

/-- A fluid with a non-positive (negative) vapor density, otherwise equal to
Novec 7100; used to exercise calculate_zuber_chf on invalid densities. -/
noncomputable def zuberBadFluid : FluidProperties :=
  ⟨"BadVapor", 1510, -9.9, 0.0136, 112000, 0.00058, 0.069, 1183, 61⟩

/-- Positivity of the Zuber correlation under the physical hypotheses. -/
lemma zuber_chf_pos (fluid : FluidProperties) (pf : ℝ) (hpf : 0 < pf)
    (hv : 0 < fluid.density_v) (hlv : fluid.density_v < fluid.density_l)
    (hs : 0 < fluid.surface_tension) (hh : 0 < fluid.h_vap) :
    0 < calculate_zuber_chf fluid pf := by
  have hb : 0 < fluid.surface_tension * G * (fluid.density_l - fluid.density_v) /
      fluid.density_v ^ (2 : ℕ) := by
    have hG : (0:ℝ) < G := by norm_num [G]
    have h1 : 0 < fluid.density_l - fluid.density_v := by linarith
    positivity
  have hvs : 0 < (fluid.surface_tension * G * (fluid.density_l - fluid.density_v) /
      fluid.density_v ^ (2 : ℕ)) ^ ((0.25 : ℝ)) := Real.rpow_pos_of_pos hb _
  simp only [calculate_zuber_chf]
  positivity

/-- Numeric positivity for the Novec 7100 demo fluid. -/
lemma zuber_novec_pos : 0 < calculate_zuber_chf novec 1 := by
  refine zuber_chf_pos novec 1 (by norm_num) ?_ ?_ ?_ ?_ <;> norm_num [novec]

/-- C4: for every fluid and pressure factor, calculate_zuber_chf evaluates the
Zuber correlation 0.131·h_fg·ρv·(σ·g·(ρl−ρv)/ρv²)^0.25·pressure_factor with
g = 9.81, and on the Novec 7100 property set (ρl=1510, ρv=9.9, σ=0.0136,
h_fg=112000) with pressure factor 1 the value lies within 100 W/m² of
173600 W/m². -/
theorem zuber_chf_formula_and_novec_value :
    (∀ (fluid : FluidProperties) (pf : ℝ),
      calculate_zuber_chf fluid pf =
        0.131 * fluid.h_vap * fluid.density_v *
          (fluid.surface_tension * 9.81 * (fluid.density_l - fluid.density_v) /
            fluid.density_v ^ (2 : ℕ)) ^ ((0.25 : ℝ)) * pf) ∧
    |calculate_zuber_chf novec 1 - 173600| < 100 := by
  constructor
  · intro fluid pf
    simp only [calculate_zuber_chf, G]
  · have hb : (0:ℝ) < 0.0136 * 9.81 * (1510 - 9.9) / (9.9 : ℝ) ^ (2 : ℕ) := by
      norm_num
    set b : ℝ := 0.0136 * 9.81 * (1510 - 9.9) / (9.9 : ℝ) ^ (2 : ℕ) with hbdef
    set y : ℝ := b ^ ((0.25 : ℝ)) with hydef
    have hy0 : 0 ≤ y := Real.rpow_nonneg hb.le _
    have hy4 : y ^ (4 : ℕ) = b := by
      rw [hydef, ← Real.rpow_natCast (b ^ ((0.25:ℝ))) 4, ← Real.rpow_mul hb.le]
      norm_num
    have h1 : (1.1945 : ℝ) < y := by
      apply lt_of_pow_lt_pow_left₀ 4 hy0
      rw [hy4, hbdef]; norm_num
    have h2 : y < (1.1958 : ℝ) := by
      apply lt_of_pow_lt_pow_left₀ 4 (by norm_num : (0:ℝ) ≤ 1.1958)
      rw [hy4, hbdef]; norm_num
    have hval : calculate_zuber_chf novec 1 = 0.131 * 112000 * 9.9 * y * 1 := by
      simp only [calculate_zuber_chf, novec, G, hydef, hbdef]
    rw [hval, abs_lt]
    constructor <;> nlinarith

/-- C9 amended: calculate_zuber_chf performs no input validation.  For a fluid
whose vapor density is negative (a non-positive density) and otherwise
physical fields, it still evaluates the correlation and returns its numeric
value, which is strictly negative — no error is produced before or during the
computation. -/
theorem zuber_chf_no_validation (fluid : FluidProperties) (pf : ℝ)
    (hpf : 0 < pf) (hv : fluid.density_v < 0) (hl : 0 < fluid.density_l)
    (hs : 0 < fluid.surface_tension) (hh : 0 < fluid.h_vap) :
    calculate_zuber_chf fluid pf =
      0.131 * fluid.h_vap * fluid.density_v *
        (fluid.surface_tension * G * (fluid.density_l - fluid.density_v) /
          fluid.density_v ^ (2 : ℕ)) ^ ((0.25 : ℝ)) * pf ∧
    calculate_zuber_chf fluid pf < 0 := by
  constructor
  · simp only [calculate_zuber_chf]
  · have hG : (0:ℝ) < G := by norm_num [G]
    have h1 : 0 < fluid.density_l - fluid.density_v := by linarith
    have h2 : (0:ℝ) < fluid.density_v ^ (2 : ℕ) := by
      have : fluid.density_v ≠ 0 := ne_of_lt hv
      positivity
    have hb : 0 < fluid.surface_tension * G * (fluid.density_l - fluid.density_v) /
        fluid.density_v ^ (2 : ℕ) :=
      div_pos (mul_pos (mul_pos hs hG) h1) h2
    have hvs : 0 < (fluid.surface_tension * G * (fluid.density_l - fluid.density_v) /
        fluid.density_v ^ (2 : ℕ)) ^ ((0.25 : ℝ)) := Real.rpow_pos_of_pos hb _
    simp only [calculate_zuber_chf]
    have hc : (0:ℝ) < 0.131 * fluid.h_vap := by nlinarith
    exact mul_neg_of_neg_of_pos
      (mul_neg_of_neg_of_pos (mul_neg_of_pos_of_neg hc hv) hvs) hpf

/-- C9 witness: the no-validation theorem applied to the concrete bad fluid. -/
theorem zuber_chf_no_validation_witness :
    calculate_zuber_chf zuberBadFluid 1 < 0 :=
  (zuber_chf_no_validation zuberBadFluid 1 (by norm_num)
    (by norm_num [zuberBadFluid]) (by norm_num [zuberBadFluid])
    (by norm_num [zuberBadFluid]) (by norm_num [zuberBadFluid])).2

/-- C9 counterexample: on a fluid with a non-positive (negative) vapor
density, calculate_zuber_chf does not fail fast; it performs the correlation
computation and returns its numeric value. -/
theorem zuber_chf_bad_fluid_returns_value :
    calculate_zuber_chf zuberBadFluid 1 =
      0.131 * 112000 * (-9.9) *
        ((0.0136 * 9.81 * (1510 - (-9.9)) / ((-9.9) : ℝ) ^ (2 : ℕ)) ^ ((0.25 : ℝ))) *
        1 := by
  simp only [calculate_zuber_chf, zuberBadFluid, G]

/-! ## Safety margin classifier (boiling_curves.py lines 287-341) -/

/-- Qualitative safety status returned by the classifier
(boiling_curves.py lines 317-329). -/
inductive SafetyStatus where
  | CRITICAL_FAILURE : SafetyStatus
  | DANGER : SafetyStatus
  | WARNING : SafetyStatus
  | SAFE : SafetyStatus
deriving DecidableEq

/-- Result record of calculate_safety_margin (boiling_curves.py lines
331-341); the human-readable message string is omitted, no claim concerns
it. -/
structure SafetyMargin where
  fluid : String
  operating_flux_w_cm2 : ℝ
  chf_limit_w_cm2 : ℝ
  allowable_flux_w_cm2 : ℝ
  margin_w_cm2 : ℝ
  margin_percent : ℝ
  utilization_percent : ℝ
  status : SafetyStatus

/-- Thermal safety margin for an operating condition
(boiling_curves.py lines 287-341).  The Python default safety_factor=0.7 is
passed explicitly by callers here. -/
noncomputable def calculate_safety_margin (heat_flux_w_cm2 : ℝ)
    (fluid : FluidProperties) (safety_factor : ℝ) : SafetyMargin :=
  let q_chf := calculate_zuber_chf fluid 1 / 10000
  let q_allowable := q_chf * safety_factor
  let margin := q_allowable - heat_flux_w_cm2
  let margin_percent := (q_chf - heat_flux_w_cm2) / q_chf * 100
  let utilization := heat_flux_w_cm2 / q_chf * 100
  let status :=
    if heat_flux_w_cm2 > q_chf then SafetyStatus.CRITICAL_FAILURE
    else if heat_flux_w_cm2 > q_allowable then SafetyStatus.DANGER
    else if margin_percent < 50 then SafetyStatus.WARNING
    else SafetyStatus.SAFE
  ⟨fluid.name, heat_flux_w_cm2, q_chf, q_allowable, margin, margin_percent,
    utilization, status⟩

/-- On an operating flux exactly equal to a positive CHF, the strict first
threshold fails and the classifier lands in the DANGER branch. -/
lemma safety_margin_status_at_chf (fluid : FluidProperties)
    (hpos : 0 < calculate_zuber_chf fluid 1) :
    (calculate_safety_margin (calculate_zuber_chf fluid 1 / 10000) fluid
      0.7).status = SafetyStatus.DANGER := by
  have hchf : (0:ℝ) < calculate_zuber_chf fluid 1 / 10000 := by positivity
  simp only [calculate_safety_margin]
  rw [if_neg (lt_irrefl _), if_pos]
  nlinarith

/-- C5 amended: calculate_safety_margin classifies by the thresholds in order
(operating_flux > CHF gives CRITICAL_FAILURE; operating_flux > safety_factor
times CHF gives DANGER; margin_percent < 50 gives WARNING; otherwise SAFE,
with margin_percent = (CHF − operating_flux)/CHF·100), but because the first
threshold is strict, an operating flux exactly equal to a positive CHF is
classified DANGER, not CRITICAL_FAILURE. -/
theorem safety_margin_thresholds (flux : ℝ) (fluid : FluidProperties)
    (sf : ℝ) :
    ((calculate_safety_margin flux fluid sf).status =
      (if flux > calculate_zuber_chf fluid 1 / 10000 then
        SafetyStatus.CRITICAL_FAILURE
      else if flux > calculate_zuber_chf fluid 1 / 10000 * sf then
        SafetyStatus.DANGER
      else if (calculate_zuber_chf fluid 1 / 10000 - flux) /
          (calculate_zuber_chf fluid 1 / 10000) * 100 < 50 then
        SafetyStatus.WARNING
      else SafetyStatus.SAFE) ∧
    (calculate_safety_margin flux fluid sf).margin_percent =
      (calculate_zuber_chf fluid 1 / 10000 - flux) /
        (calculate_zuber_chf fluid 1 / 10000) * 100) ∧
    (0 < calculate_zuber_chf fluid 1 →
      (calculate_safety_margin (calculate_zuber_chf fluid 1 / 10000) fluid
        0.7).status = SafetyStatus.DANGER) := by
  exact ⟨⟨rfl, rfl⟩, safety_margin_status_at_chf fluid⟩

/-- C5 counterexample: for the Novec 7100 fluid, an operating flux exactly
equal to the Zuber CHF is classified DANGER, not CRITICAL_FAILURE. -/
theorem safety_margin_at_chf_is_danger :
    (calculate_safety_margin (calculate_zuber_chf novec 1 / 10000) novec
      0.7).status = SafetyStatus.DANGER ∧
    SafetyStatus.DANGER ≠ SafetyStatus.CRITICAL_FAILURE := by
  refine ⟨safety_margin_status_at_chf novec zuber_novec_pos, by decide⟩

/-! ## Boiling curve synthesis (boiling_curves.py lines 227-284) -/

/-- Heat flux in W/cm² at a single superheat value: the body of the sampling
loop of calculate_boiling_curve (boiling_curves.py lines 251-282), with
q_chf the Zuber value converted to W/cm², delta_t_chf the assumed CHF
superheat of 30 °C, h_nc = 500, q_onset = 0.5 and q_min = 0.1·q_chf. -/
noncomputable def boilingCurvePoint (fluid : FluidProperties) (dt : ℝ) : ℝ :=
  let q_chf := calculate_zuber_chf fluid 1 / 10000
  let delta_t_chf : ℝ := 30.0
  if dt < 5 then (500 * dt) / 10000
  else if dt < delta_t_chf then
    0.5 * (((dt - 5) / (delta_t_chf - 5)) ^ (3 : ℕ)) * q_chf
  else if dt < delta_t_chf + 5 then
    q_chf - (q_chf - q_chf * 0.1) * ((dt - delta_t_chf) / 5)
  else (q_chf * 0.1) * (1 + 0.005 * (dt - delta_t_chf - 5))

/-- Evenly spaced samples, mirroring numpy linspace. -/
noncomputable def linspace (lo hi : ℝ) (n : ℕ) : List ℝ :=
  (List.range n).map (fun i => lo + i * (hi - lo) / (n - 1))

/-- The full synthesized boiling curve (boiling_curves.py lines 227-284):
superheat samples and the heat flux at each sample. -/
noncomputable def calculate_boiling_curve (fluid : FluidProperties)
    (lo hi : ℝ) (n : ℕ) : List ℝ × List ℝ :=
  (linspace lo hi n, (linspace lo hi n).map (boilingCurvePoint fluid))

/-- The nucleate-boiling branch formula (5 ≤ ΔT < 30). -/
lemma boilingCurvePoint_nucleate (fluid : FluidProperties) (dt : ℝ)
    (h5 : 5 ≤ dt) (h30 : dt < 30) :
    boilingCurvePoint fluid dt =
      0.5 * (((dt - 5) / 25) ^ (3 : ℕ)) * (calculate_zuber_chf fluid 1 / 10000) := by
  simp only [boilingCurvePoint]
  rw [if_neg (by linarith), if_pos (by norm_num; linarith)]
  norm_num

/-- At exactly the assumed 30 °C CHF superheat, the transition branch starts
at the full CHF value. -/
lemma boilingCurvePoint_thirty (fluid : FluidProperties) :
    boilingCurvePoint fluid 30 = calculate_zuber_chf fluid 1 / 10000 := by
  simp only [boilingCurvePoint]
  rw [if_neg (by norm_num), if_neg (by norm_num), if_pos (by norm_num)]
  ring

/-- C6 amended: the nucleate-boiling branch of the synthesized curve
(5 ≤ ΔT < 30) is the cubic power law 0.5·((ΔT−5)/25)³·CHF, which rises to
half of the CHF value as ΔT approaches the assumed 30 °C CHF superheat (the
q_onset = 0.5 coefficient multiplies the CHF), not to CHF itself; the curve
value at exactly 30 °C is CHF, reached by a jump, and the following 5 °C-wide
transition branch collapses linearly from CHF at 30 °C down to 10% of CHF at
35 °C. -/
theorem boiling_curve_branches (fluid : FluidProperties) (dt : ℝ) :
    (5 ≤ dt → dt < 30 →
      boilingCurvePoint fluid dt =
        0.5 * (((dt - 5) / 25) ^ (3 : ℕ)) * (calculate_zuber_chf fluid 1 / 10000)) ∧
    boilingCurvePoint fluid 30 = calculate_zuber_chf fluid 1 / 10000 ∧
    (30 ≤ dt → dt < 35 →
      boilingCurvePoint fluid dt =
        (calculate_zuber_chf fluid 1 / 10000) * (1 - 0.9 * ((dt - 30) / 5))) ∧
    (0 < calculate_zuber_chf fluid 1 →
      0.5 * (((30 - 5) / (25 : ℝ)) ^ (3 : ℕ)) * (calculate_zuber_chf fluid 1 / 10000) <
        calculate_zuber_chf fluid 1 / 10000) := by
  refine ⟨boilingCurvePoint_nucleate fluid dt, boilingCurvePoint_thirty fluid,
    ?_, ?_⟩
  · intro h30 h35
    simp only [boilingCurvePoint]
    rw [if_neg (by linarith), if_neg (by norm_num; linarith),
      if_pos (by norm_num; linarith)]
    ring
  · intro hpos
    have : (0:ℝ) < calculate_zuber_chf fluid 1 / 10000 := by positivity
    nlinarith

/-- C6 counterexample: for Novec 7100, the curve at 29 °C superheat (inside
the nucleate branch, 1 °C below the assumed CHF superheat) is below half of
the curve value at 30 °C, so the nucleate power law does not rise to the CHF
value at 30 °C — it jumps there discontinuously. -/
theorem boiling_curve_jump_at_chf :
    boilingCurvePoint novec 29 < boilingCurvePoint novec 30 / 2 ∧
    boilingCurvePoint novec 30 = calculate_zuber_chf novec 1 / 10000 := by
  have h30 := boilingCurvePoint_thirty novec
  have h29 := boilingCurvePoint_nucleate novec 29 (by norm_num) (by norm_num)
  have hq : (0:ℝ) < calculate_zuber_chf novec 1 / 10000 := by
    have := zuber_novec_pos; positivity
  refine ⟨?_, h30⟩
  rw [h29, h30]
  nlinarith

/-! ## Lienhard heater-size correction (boiling_curves.py lines 186-224) -/

/-- Spec-side restatement of the three-branch Lienhard size factor as a
function of the dimensionless heater size. -/
noncomputable def lienhardSizeFactorSpec (L_prime : ℝ) : ℝ :=
  if L_prime < 0.15 then 1.14 / L_prime ^ ((0.25 : ℝ))
  else if L_prime < 2.0 then 1.14 - 0.14 * (L_prime - 0.15)
  else 1.0

/-- CHF with heater size correction (boiling_curves.py lines 186-224):
capillary length from surface tension and density difference, dimensionless
size, three-branch size factor multiplying the base Zuber CHF. -/
noncomputable def calculate_lienhard_chf_heater_size (fluid : FluidProperties)
    (heater_width_mm : ℝ) : ℝ :=
  let L_cap := Real.sqrt (fluid.surface_tension /
    (G * (fluid.density_l - fluid.density_v)))
  let L_cap_mm := L_cap * 1000
  let L_prime := heater_width_mm / L_cap_mm
  let size_factor :=
    if L_prime < 0.15 then 1.14 / L_prime ^ ((0.25 : ℝ))
    else if L_prime < 2.0 then 1.14 - 0.14 * (L_prime - 0.15)
    else 1.0
  calculate_zuber_chf fluid 1 * size_factor

/-- C8: calculate_lienhard_chf_heater_size is the base Zuber CHF multiplied
by the three-branch size factor of the dimensionless size L_prime =
heater_width / L_cap (both in mm, L_cap = sqrt(σ/(g·(ρl−ρv))) in m), and for
every width whose dimensionless size is at least 2.0 (the infinite-plate
branch) it equals calculate_zuber_chf exactly. -/
theorem lienhard_size_factor_eq (fluid : FluidProperties) (w : ℝ) :
    calculate_lienhard_chf_heater_size fluid w =
      calculate_zuber_chf fluid 1 *
        lienhardSizeFactorSpec (w /
          (Real.sqrt (fluid.surface_tension /
            (9.81 * (fluid.density_l - fluid.density_v))) * 1000)) ∧
    (2 ≤ w / (Real.sqrt (fluid.surface_tension /
        (9.81 * (fluid.density_l - fluid.density_v))) * 1000) →
      calculate_lienhard_chf_heater_size fluid w =
        calculate_zuber_chf fluid 1) := by
  constructor
  · simp only [calculate_lienhard_chf_heater_size, lienhardSizeFactorSpec, G]
  · intro h2
    simp only [calculate_lienhard_chf_heater_size, G]
    rw [if_neg (by linarith), if_neg (by linarith)]
    norm_num

/-! ## Marangoni transport model (src/physics/marangoni_velocity.py) -/

/-- Properties required for the Marangoni velocity calculation
(marangoni_velocity.py lines 63-85). -/
structure MarangoniFluidProperties where
  rho : ℝ
  mu : ℝ
  d_sigma_dT : ℝ
  h_film : ℝ

/-- The default (Genesis) Marangoni transport property values:
ρ = 1370 kg/m³, μ = 0.00048 Pa·s, dσ/dT = 0.0002 N/m·K, h_film = 0.0005 m. -/
noncomputable def genesisDefaults : MarangoniFluidProperties :=
  ⟨1370, 0.00048, 0.0002, 0.0005⟩

/-- A transport property set with a negative film thickness, used to probe
the sign of the returned velocity. -/
noncomputable def negativeFilmProps : MarangoniFluidProperties :=
  ⟨1370, 1, 1, -1⟩

/-- Marangoni-driven average flow velocity (marangoni_velocity.py lines
88-133): shear stress τ = dσ/dT·|dT/dx|, Couette velocity u = h_film·τ/(2μ).
The Python optional fluid argument defaulting to the Genesis properties is
passed explicitly here. -/
noncomputable def calculate_marangoni_velocity (dT_dx : ℝ)
    (fluid : MarangoniFluidProperties) : ℝ :=
  let tau_ma := fluid.d_sigma_dT * |dT_dx|
  fluid.h_film * tau_ma / (2 * fluid.mu)

/-- C7 amended: calculate_marangoni_velocity returns
h_film·(dσ/dT)·|gradient|/(2μ); it is non-negative whenever μ > 0,
dσ/dT ≥ 0 and h_film ≥ 0, linear in the gradient magnitude, zero at zero
gradient, and with the default properties (dσ/dT = 0.0002, h_film = 0.0005,
μ = 0.00048) at a gradient of 1000 K/m it equals 5/48 ≈ 0.104167 m/s, which
is within 1e-6 of 0.104167 but only within 1e-4 of the rounded figure
0.1042. -/
theorem marangoni_velocity_props (g : ℝ) (p : MarangoniFluidProperties) :
    calculate_marangoni_velocity g p =
      p.h_film * (p.d_sigma_dT * |g|) / (2 * p.mu) ∧
    (0 ≤ p.h_film → 0 ≤ p.d_sigma_dT → 0 < p.mu →
      0 ≤ calculate_marangoni_velocity g p) ∧
    calculate_marangoni_velocity g p = |g| * calculate_marangoni_velocity 1 p ∧
    calculate_marangoni_velocity 0 p = 0 ∧
    calculate_marangoni_velocity 1000 genesisDefaults = 5 / 48 ∧
    |calculate_marangoni_velocity 1000 genesisDefaults - 0.104167| < 1e-6 ∧
    |calculate_marangoni_velocity 1000 genesisDefaults - 0.1042| < 1e-4 := by
  have habs : |(1000:ℝ)| = 1000 := by
    rw [abs_of_pos]; norm_num
  have hval : calculate_marangoni_velocity 1000 genesisDefaults = 5 / 48 := by
    simp only [calculate_marangoni_velocity, genesisDefaults, habs]
    norm_num
  refine ⟨rfl, ?_, ?_, ?_, hval, ?_, ?_⟩
  · intro h1 h2 h3
    simp only [calculate_marangoni_velocity]
    positivity
  · simp only [calculate_marangoni_velocity, abs_one]
    ring
  · simp only [calculate_marangoni_velocity, abs_zero]
    ring
  · rw [hval]; rw [abs_lt]; constructor <;> norm_num
  · rw [hval]; rw [abs_lt]; constructor <;> norm_num

/-- C7 counterexample: at the default properties and gradient 1000 K/m the
velocity differs from 0.1042 by more than 1e-6 (the exact value is
5/48 ≈ 0.1041667), and with a negative film thickness (allowed by the
claimed hypotheses, which constrain only μ and dσ/dT) the velocity is
negative. -/
theorem marangoni_velocity_not_within_tolerance :
    1e-6 < |calculate_marangoni_velocity 1000 genesisDefaults - 0.1042| ∧
    calculate_marangoni_velocity 1 negativeFilmProps < 0 := by
  have habs : |(1000:ℝ)| = 1000 := by
    rw [abs_of_pos]; norm_num
  have hval : calculate_marangoni_velocity 1000 genesisDefaults = 5 / 48 := by
    simp only [calculate_marangoni_velocity, genesisDefaults, habs]
    norm_num
  constructor
  · rw [hval]
    rw [abs_of_neg (by norm_num)]
    norm_num
  · simp only [calculate_marangoni_velocity, negativeFilmProps, abs_one]
    norm_num

/-! ## Kandlikar CHF correlation (boiling_curves.py lines 142-183) -/

/-- The Kandlikar wettability/geometry enhancement factor as a function of
the contact angle in degrees:
sqrt(((1+cosθ)/16)·(2/π + (π/4)(1+cosθ))), θ in radians. -/
noncomputable def kandlikarEnhancement (contact_angle_deg : ℝ) : ℝ :=
  ((1 + Real.cos (contact_angle_deg * Real.pi / 180)) / 16 *
    (2 / Real.pi + Real.pi / 4 *
      (1 + Real.cos (contact_angle_deg * Real.pi / 180)))) ^ ((0.5 : ℝ))

/-- Kandlikar (2001) CHF for enhanced surfaces (boiling_curves.py lines
142-183): the contact angle is converted to radians, and the base Zuber CHF
is multiplied by the wettability/geometry enhancement and the upward
orientation factor K1 = 1. -/
noncomputable def calculate_kandlikar_chf (fluid : FluidProperties)
    (contact_angle_deg : ℝ) : ℝ :=
  let theta := contact_angle_deg * Real.pi / 180
  let K1 : ℝ := 1.0
  let wettability := (1 + Real.cos theta) / 16
  let geometry_term := 2 / Real.pi + Real.pi / 4 * (1 + Real.cos theta)
  let q_zuber := calculate_zuber_chf fluid 1
  let enhancement := (wettability * geometry_term) ^ ((0.5 : ℝ))
  q_zuber * enhancement * K1

/-- The rpow 0.5 in the enhancement factor is a square root. -/
lemma kandlikarEnhancement_eq_sqrt (deg : ℝ) :
    kandlikarEnhancement deg =
      Real.sqrt ((1 + Real.cos (deg * Real.pi / 180)) / 16 *
        (2 / Real.pi + Real.pi / 4 *
          (1 + Real.cos (deg * Real.pi / 180)))) := by
  rw [kandlikarEnhancement, Real.sqrt_eq_rpow]
  norm_num

/-- The radicand of the enhancement factor is non-increasing in the contact
angle on [0°, 180°), because the cosine is non-increasing on [0, π]. -/
lemma kandlikar_radicand_antitone (a b : ℝ) (h0 : 0 ≤ a) (hab : a ≤ b)
    (hb : b < 180) :
    (1 + Real.cos (b * Real.pi / 180)) / 16 *
      (2 / Real.pi + Real.pi / 4 * (1 + Real.cos (b * Real.pi / 180))) ≤
    (1 + Real.cos (a * Real.pi / 180)) / 16 *
      (2 / Real.pi + Real.pi / 4 * (1 + Real.cos (a * Real.pi / 180))) := by
  have hpi := Real.pi_pos
  have hra : 0 ≤ a * Real.pi / 180 := by positivity
  have hrb : b * Real.pi / 180 ≤ Real.pi := by
    rw [div_le_iff (by norm_num : (0:ℝ) < 180)]
    nlinarith
  have hrab : a * Real.pi / 180 ≤ b * Real.pi / 180 := by
    have : a * Real.pi ≤ b * Real.pi := by nlinarith
    linarith
  have hcos : Real.cos (b * Real.pi / 180) ≤ Real.cos (a * Real.pi / 180) :=
    Real.cos_le_cos_of_nonneg_of_le_pi hra hrb hrab
  have hcb : -1 ≤ Real.cos (b * Real.pi / 180) := Real.neg_one_le_cos _
  have h2 : 0 ≤ 1 + Real.cos (b * Real.pi / 180) := by linarith
  have h2a : 0 ≤ 1 + Real.cos (a * Real.pi / 180) := by linarith
  have h3 : 0 ≤ 2 / Real.pi + Real.pi / 4 * (1 + Real.cos (b * Real.pi / 180)) :=
    add_nonneg (by positivity) (mul_nonneg (by positivity) h2)
  have h4 : 0 ≤ (1 + Real.cos (a * Real.pi / 180)) / 16 := by linarith
  exact mul_le_mul (by linarith) (by nlinarith) h3 h4

/-- Two-sided numeric bounds for the enhancement factor at zero contact
angle: it is approximately 0.525. -/
lemma kandlikarEnhancement_zero_bounds :
    0.5252 < kandlikarEnhancement 0 ∧ kandlikarEnhancement 0 < 0.5253 := by
  have hpi := Real.pi_pos
  have hlo := Real.pi_gt_3141592
  have hhi := Real.pi_lt_3141593
  have hzero : (0:ℝ) * Real.pi / 180 = 0 := by ring
  have hinner0 : 0 ≤ (1 + Real.cos ((0:ℝ) * Real.pi / 180)) / 16 *
      (2 / Real.pi + Real.pi / 4 * (1 + Real.cos ((0:ℝ) * Real.pi / 180))) := by
    rw [hzero, Real.cos_zero]
    positivity
  have h2lo : (0.6366:ℝ) < 2 / Real.pi := by
    rw [lt_div_iff hpi]; nlinarith
  have h2hi : 2 / Real.pi < (0.63662:ℝ) := by
    rw [div_lt_iff hpi]; nlinarith
  constructor
  · rw [kandlikarEnhancement_eq_sqrt]
    have hlt : (0.5252:ℝ) ^ (2:ℕ) < (1 + Real.cos ((0:ℝ) * Real.pi / 180)) / 16 *
        (2 / Real.pi + Real.pi / 4 * (1 + Real.cos ((0:ℝ) * Real.pi / 180))) := by
      rw [hzero, Real.cos_zero]
      nlinarith
    have := Real.sqrt_lt_sqrt (by positivity) hlt
    rwa [Real.sqrt_sq (by norm_num : (0:ℝ) ≤ 0.5252)] at this
  · rw [kandlikarEnhancement_eq_sqrt]
    have hlt : (1 + Real.cos ((0:ℝ) * Real.pi / 180)) / 16 *
        (2 / Real.pi + Real.pi / 4 * (1 + Real.cos ((0:ℝ) * Real.pi / 180))) <
        (0.5253:ℝ) ^ (2:ℕ) := by
      rw [hzero, Real.cos_zero]
      nlinarith
    have := Real.sqrt_lt_sqrt hinner0 hlt
    rwa [Real.sqrt_sq (by norm_num : (0:ℝ) ≤ 0.5253)] at this

/-- C10: for every fluid with ρl > ρv > 0, σ > 0, h_fg > 0 and every contact
angle in [0°, 180°), calculate_kandlikar_chf is the Zuber CHF times the
enhancement factor, strictly below calculate_zuber_chf; the enhancement
factor is non-increasing in the angle, bounded by its value at 0°, which is
approximately 0.525, hence always below 1. -/
theorem kandlikar_below_zuber (fluid : FluidProperties) (theta : ℝ)
    (hv : 0 < fluid.density_v) (hlv : fluid.density_v < fluid.density_l)
    (hs : 0 < fluid.surface_tension) (hh : 0 < fluid.h_vap)
    (ht0 : 0 ≤ theta) (ht1 : theta < 180) :
    calculate_kandlikar_chf fluid theta =
      calculate_zuber_chf fluid 1 * kandlikarEnhancement theta ∧
    calculate_kandlikar_chf fluid theta < calculate_zuber_chf fluid 1 ∧
    (∀ theta2, theta ≤ theta2 → theta2 < 180 →
      kandlikarEnhancement theta2 ≤ kandlikarEnhancement theta) ∧
    kandlikarEnhancement theta ≤ kandlikarEnhancement 0 ∧
    (0.5252 < kandlikarEnhancement 0 ∧ kandlikarEnhancement 0 < 0.5253) ∧
    kandlikarEnhancement theta < 1 := by
  have hzuber : 0 < calculate_zuber_chf fluid 1 :=
    zuber_chf_pos fluid 1 one_pos hv hlv hs hh
  have heq : calculate_kandlikar_chf fluid theta =
      calculate_zuber_chf fluid 1 * kandlikarEnhancement theta := by
    simp only [calculate_kandlikar_chf, kandlikarEnhancement]
    norm_num
  have hmax : kandlikarEnhancement theta ≤ kandlikarEnhancement 0 := by
    rw [kandlikarEnhancement_eq_sqrt, kandlikarEnhancement_eq_sqrt]
    exact Real.sqrt_le_sqrt (kandlikar_radicand_antitone 0 theta le_rfl ht0 ht1)
  have hbounds := kandlikarEnhancement_zero_bounds
  have hlt1 : kandlikarEnhancement theta < 1 := by linarith [hbounds.2]
  refine ⟨heq, ?_, ?_, hmax, hbounds, hlt1⟩
  · rw [heq]
    exact mul_lt_of_lt_one_right hzuber hlt1
  · intro theta2 h1 h2
    rw [kandlikarEnhancement_eq_sqrt, kandlikarEnhancement_eq_sqrt]
    exact Real.sqrt_le_sqrt (kandlikar_radicand_antitone theta theta2 ht0 h1 h2)

/-- C10 witness: the Kandlikar value at the default 30° contact angle on the
Novec 7100 fluid is strictly below the Zuber value. -/
theorem kandlikar_below_zuber_witness :
    calculate_kandlikar_chf novec 30 < calculate_zuber_chf novec 1 :=
  (kandlikar_below_zuber novec 30 (by norm_num [novec]) (by norm_num [novec])
    (by norm_num [novec]) (by norm_num [novec]) (by norm_num)
    (by norm_num)).2.1

/-! ## Coupled thermal-fluid solver (src/verify_dryout.py) -/

/-- Mixture density (verify_dryout.py line 40). -/
noncomputable def RHO : ℝ := 1370.0

/-- Dynamic viscosity (verify_dryout.py line 41). -/
noncomputable def MU : ℝ := 0.00048

/-- Specific heat (verify_dryout.py line 42). -/
noncomputable def CP : ℝ := 1180.0

/-- Fluid thermal conductivity (verify_dryout.py line 43). -/
noncomputable def K_FLUID : ℝ := 0.075

/-- Saturation temperature (verify_dryout.py line 45). -/
noncomputable def T_SAT : ℝ := 33.0

/-- Surface-tension temperature coefficient (verify_dryout.py line 52). -/
noncomputable def SIGMA_GRAD : ℝ := 0.00012

/-- Copper substrate density (verify_dryout.py line 55). -/
noncomputable def RHO_CU : ℝ := 8960.0

/-- Copper specific heat (verify_dryout.py line 56). -/
noncomputable def CP_CU : ℝ := 385.0

/-- Copper thermal conductivity (verify_dryout.py line 57). -/
noncomputable def K_CU : ℝ := 400.0

/-- Copper base thickness (verify_dryout.py line 58). -/
noncomputable def THICKNESS_CU : ℝ := 0.002

/-- Channel length (verify_dryout.py line 64). -/
noncomputable def L_CHANNEL : ℝ := 0.01

/-- Channel width (verify_dryout.py line 65). -/
noncomputable def W_CHANNEL : ℝ := 0.005

/-- Channel height (verify_dryout.py line 66). -/
noncomputable def H_CHANNEL : ℝ := 0.0005

/-- Hydraulic diameter (verify_dryout.py line 67). -/
noncomputable def D_H : ℝ := 2 * (W_CHANNEL * H_CHANNEL) / (W_CHANNEL + H_CHANNEL)

/-- Node count of the spatial grid (verify_dryout.py line 69). -/
def NODES : ℕ := 50

/-- Grid spacing (verify_dryout.py line 70). -/
noncomputable def DX : ℝ := L_CHANNEL / NODES

/-- numpy clip: clamp a value into the interval [lo, hi]. -/
noncomputable def npClip (lo hi x : ℝ) : ℝ := max lo (min x hi)

/-- numpy gradient of a 50-node field with spacing dx: central differences in
the interior, first-order one-sided differences at the two boundary nodes. -/
noncomputable def npGradient (f : Fin 50 → ℝ) (dx : ℝ) : Fin 50 → ℝ := fun i =>
  if h0 : i.val = 0 then (f ⟨1, by norm_num⟩ - f ⟨0, by norm_num⟩) / dx
  else if h49 : i.val = 49 then (f ⟨49, by norm_num⟩ - f ⟨48, by norm_num⟩) / dx
  else (f ⟨i.val + 1, by have := i.isLt; omega⟩ -
    f ⟨i.val - 1, by have := i.isLt; omega⟩) / (2 * dx)

/-- Gaussian heat-load profile before normalization (verify_dryout.py lines
99-102): center node 25, width 5 nodes. -/
noncomputable def gaussianProfile (i : Fin 50) : ℝ :=
  Real.exp (-(((i.val : ℝ) - 25) ^ (2:ℕ)) / (2 * 5 ^ (2:ℕ)))

/-- Per-node applied heat flux (verify_dryout.py lines 103-104): the Gaussian
profile normalized to unit spatial mean and scaled by the scalar flux. -/
noncomputable def Q_FLUX_PROFILE (q_flux_w_m2 : ℝ) (i : Fin 50) : ℝ :=
  q_flux_w_m2 * (gaussianProfile i / ((∑ j, gaussianProfile j) / 50))

/-- Per-node solver state (verify_dryout.py lines 106-110). -/
structure SolverState where
  T_wall : Fin 50 → ℝ
  T_fluid : Fin 50 → ℝ
  u_flow : Fin 50 → ℝ
  h_total : Fin 50 → ℝ

/-- Initial state (verify_dryout.py lines 106-116): uniform 25 °C with a 0.1 °C
seed perturbation at the center node, primed flow, zero transfer coefficient. -/
noncomputable def initState (priming_flow : ℝ) : SolverState where
  T_wall := fun i => if i.val = 25 then 25.0 + 0.1 else 25.0
  T_fluid := fun _ => 25.0
  u_flow := fun _ => priming_flow
  h_total := fun _ => 0

/-- One iteration of the time-marching loop of solve_marangoni_physics
(verify_dryout.py lines 118-206): Marangoni flow with inertia smoothing,
Gnielinski or laminar Nusselt number, Rohsenow boiling enhancement with cap,
relaxed total coefficient, clamped explicit wall update, clamped fluid
advection and the fixed inlet boundary condition.  Returns the updated state
together with the mean flow velocity computed in this iteration. -/
noncomputable def step (Q : Fin 50 → ℝ) (dt : ℝ) (s : SolverState) :
    SolverState × ℝ :=
  let dT_dx := npGradient s.T_wall DX
  let tau := fun i => SIGMA_GRAD * |dT_dx i|
  let u_local := fun i => H_CHANNEL * tau i / (2 * MU)
  let u_flow := fun i => 0.9 * s.u_flow i + 0.1 * u_local i
  let u_mean := (∑ i, u_flow i) / 50 + 0.01
  let Re := RHO * u_mean * D_H / MU
  let Pr := CP * MU / K_FLUID
  let Nu :=
    if Re < 2300 then (4.36 : ℝ)
    else
      let f := (0.79 * Real.log Re - 1.64) ^ (-2 : ℤ)
      f / 8 * (Re - 1000) * Pr /
        (1 + 12.7 * (f / 8) ^ ((0.5 : ℝ)) * (Pr ^ ((2 : ℝ) / 3) - 1))
  let h_conv := Nu * K_FLUID / D_H
  let superheat := fun i => s.T_wall i - T_SAT
  let h_boil := fun i =>
    npClip 0 200000.0 (if 0 < superheat i then 2000.0 * superheat i ^ (2:ℕ) else 0)
  let h_target := fun i => h_conv + h_boil i
  let h_total := fun i => 0.99 * s.h_total i + 0.01 * h_target i
  let d2T := npGradient (npGradient s.T_wall DX) DX
  let dq_cond := fun i => K_CU * THICKNESS_CU * d2T i
  let dq_conv := fun i => h_total i * (s.T_wall i - s.T_fluid i)
  let alpha_cu := K_CU / (RHO_CU * CP_CU)
  let max_rate := alpha_cu / DX ^ (2:ℕ)
  let dT_dt_wall := fun i =>
    npClip (-max_rate) max_rate
      ((dq_cond i + Q i - dq_conv i) / (RHO_CU * CP_CU * THICKNESS_CU))
  let T_wall := fun i => s.T_wall i + dT_dt_wall i * dt
  let dT_dx_fluid := npGradient s.T_fluid DX
  let dq_gain := fun i => h_total i * (T_wall i - s.T_fluid i)
  let dT_dt_fluid := fun i =>
    npClip (-10000.0) 10000.0
      (dq_gain i / (RHO * CP * H_CHANNEL) - u_mean * dT_dx_fluid i)
  let T_fluid := fun i => s.T_fluid i + dT_dt_fluid i * dt
  let T_fluid2 := fun i : Fin 50 => if i.val = 0 then (25.0 : ℝ) else T_fluid i
  (⟨T_wall, T_fluid2, u_flow, h_total⟩, u_mean)

/-- numpy max over a 50-node field. -/
noncomputable def maxT (f : Fin 50 → ℝ) : ℝ :=
  Finset.univ.sup' Finset.univ_nonempty f

/-- The time-marching loop (verify_dryout.py lines 118-223): at iteration t
the state advances one step; on logging iterations (t divisible by 10000)
the failure condition is checked after the update and the loop breaks early
when the maximum wall temperature exceeds 150 °C.  The Option component
models the Python local u_mean, assigned only inside the loop body. -/
noncomputable def runLoop (Q : Fin 50 → ℝ) (dt : ℝ) :
    ℕ → ℕ → SolverState → Option ℝ → SolverState × Option ℝ
  | _, 0, s, u => (s, u)
  | t, k + 1, s, _ =>
    let s2 := (step Q dt s).1
    let um := (step Q dt s).2
    if t % 10000 = 0 ∧ 150 < maxT s2.T_wall then (s2, some um)
    else runLoop Q dt (t + 1) k s2 (some um)

/-- Result record of solve_marangoni_physics (verify_dryout.py lines
225-231); the decimated history time series is omitted, no claim concerns
it. -/
structure SolveResult where
  final_T_max : ℝ
  final_flow : ℝ
  final_h : ℝ
  converged : Bool

/-- solve_marangoni_physics (verify_dryout.py lines 76-231).  time_steps is
int(t_max/dt).  When the loop body never runs (time_steps = 0) the Python
function raises NameError on reading the loop-local u_mean in the returned
dictionary; this failure is the none result. -/
noncomputable def solve_marangoni_physics
    (q_flux_w_m2 t_max dt priming_flow : ℝ) : Option SolveResult :=
  let Q := Q_FLUX_PROFILE q_flux_w_m2
  let time_steps := (⌊t_max / dt⌋).toNat
  let res := runLoop Q dt 0 time_steps (initState priming_flow) none
  res.2.map fun u =>
    ⟨maxT res.1.T_wall, u, (∑ i, res.1.h_total i) / 50,
      decide (maxT res.1.T_wall < 150.0)⟩

/-- Clipping into a symmetric interval bounds the absolute value. -/
lemma npClip_abs_le (m x : ℝ) (hm : 0 ≤ m) : |npClip (-m) m x| ≤ m := by
  rw [npClip, abs_le]
  refine ⟨le_max_left _ _, max_le (by linarith) (min_le_right x m)⟩

/-- The wall-temperature component of one step is the previous value plus a
clipped rate times dt. -/
lemma step_T_wall_eq (Q : Fin 50 → ℝ) (dt : ℝ) (s : SolverState) (i : Fin 50) :
    ∃ x, (step Q dt s).1.T_wall i = s.T_wall i +
      npClip (-(K_CU / (RHO_CU * CP_CU) / DX ^ (2:ℕ)))
        (K_CU / (RHO_CU * CP_CU) / DX ^ (2:ℕ)) x * dt :=
  ⟨_, rfl⟩

/-- The CFL-style rate bound of the wall update is non-negative. -/
lemma max_rate_nonneg : 0 ≤ K_CU / (RHO_CU * CP_CU) / DX ^ (2:ℕ) := by
  rw [K_CU, RHO_CU, CP_CU, DX, L_CHANNEL, NODES]
  positivity

/-- C2: in every time step the wall-temperature rate of change is clamped to
[−α/Δx², α/Δx²] with α = K_CU/(RHO_CU·CP_CU) the substrate diffusivity, so
for every state, heat-flux profile and non-negative dt the per-step
wall-temperature change has magnitude at most (α/Δx²)·dt, and any finite
bound on the wall field remains finite after one step. -/
theorem wall_update_clamped (Q : Fin 50 → ℝ) (dt : ℝ) (s : SolverState)
    (hdt : 0 ≤ dt) (i : Fin 50) :
    |(step Q dt s).1.T_wall i - s.T_wall i| ≤
      K_CU / (RHO_CU * CP_CU) / DX ^ (2:ℕ) * dt ∧
    (∀ M, (∀ j, |s.T_wall j| ≤ M) →
      |(step Q dt s).1.T_wall i| ≤
        M + K_CU / (RHO_CU * CP_CU) / DX ^ (2:ℕ) * dt) := by
  obtain ⟨x, hx⟩ := step_T_wall_eq Q dt s i
  have hclip : |npClip (-(K_CU / (RHO_CU * CP_CU) / DX ^ (2:ℕ)))
      (K_CU / (RHO_CU * CP_CU) / DX ^ (2:ℕ)) x| ≤
      K_CU / (RHO_CU * CP_CU) / DX ^ (2:ℕ) :=
    npClip_abs_le _ x max_rate_nonneg
  have hterm : |npClip (-(K_CU / (RHO_CU * CP_CU) / DX ^ (2:ℕ)))
      (K_CU / (RHO_CU * CP_CU) / DX ^ (2:ℕ)) x * dt| ≤
      K_CU / (RHO_CU * CP_CU) / DX ^ (2:ℕ) * dt := by
    rw [abs_mul, abs_of_nonneg hdt]
    exact mul_le_mul_of_nonneg_right hclip hdt
  constructor
  · rw [hx, add_sub_cancel_left]
    exact hterm
  · intro M hM
    rw [hx]
    exact le_trans (abs_add _ _) (add_le_add (hM i) hterm)

/-- C2 witness: the clamp bound instantiated at the initial state with unit
time step and the default B200 heat-flux profile. -/
theorem wall_update_clamped_witness :
    |(step (Q_FLUX_PROFILE 1333333) 1 (initState 2)).1.T_wall 0 -
      (initState 2).T_wall 0| ≤
      K_CU / (RHO_CU * CP_CU) / DX ^ (2:ℕ) * 1 :=
  (wall_update_clamped (Q_FLUX_PROFILE 1333333) 1 (initState 2)
    (by norm_num) 0).1

/-- After at least one iteration the loop has always assigned u_mean: the
second component is some value. -/
lemma runLoop_isSome (Q : Fin 50 → ℝ) (dt : ℝ) :
    ∀ (k t : ℕ) (s : SolverState) (u : Option ℝ),
      ∃ y, (runLoop Q dt t (k + 1) s u).2 = some y := by
  intro k
  induction k with
  | zero =>
    intro t s u
    simp only [runLoop]
    split
    · exact ⟨_, rfl⟩
    · exact ⟨_, rfl⟩
  | succ n ih =>
    intro t s u
    simp only [runLoop]
    split
    · exact ⟨_, rfl⟩
    · exact ih (t + 1) ((step Q dt s).1) (some ((step Q dt s).2))

/-- C1 counterexample: with dt = 1 > 0 and t_max = 0.4 > 0 the loop count
int(t_max/dt) is zero, the loop body never runs, and the source raises
NameError on the unassigned u_mean instead of returning normally — the
modelled result is none. -/
theorem solve_zero_steps_fails :
    solve_marangoni_physics 1000000 0.4 1 2 = none := by
  have hfloor : ⌊(0.4:ℝ) / 1⌋ = 0 := by
    rw [Int.floor_eq_zero_iff, Set.mem_Ico]
    norm_num
  simp only [solve_marangoni_physics, hfloor, Int.toNat_zero, runLoop]
  rfl

/-- C1 amended: for every heat flux and simulation controls with dt > 0,
t_max > 0 and at least one time step (dt ≤ t_max), solve_marangoni_physics
returns a result normally (with zero time steps it instead raises NameError
on the loop-local u_mean), the returned converged flag is true exactly when
the final maximum wall temperature is below 150 °C, and the time-marching
loop terminates early exactly when a periodic check (iteration index
divisible by 10000) observes a maximum wall temperature above the 150 °C
failure threshold. -/
theorem solve_returns_and_converged_iff (q t_max dt pf : ℝ)
    (hdt : 0 < dt) (hts : dt ≤ t_max) :
    (∃ r, solve_marangoni_physics q t_max dt pf = some r ∧
      (r.converged = true ↔ r.final_T_max < 150)) ∧
    (∀ (t k : ℕ) (s : SolverState) (u : Option ℝ),
      t % 10000 = 0 → 150 < maxT (step (Q_FLUX_PROFILE q) dt s).1.T_wall →
      runLoop (Q_FLUX_PROFILE q) dt t (k + 1) s u =
        ((step (Q_FLUX_PROFILE q) dt s).1,
          some (step (Q_FLUX_PROFILE q) dt s).2)) := by
  constructor
  · have h1 : (1:ℝ) ≤ t_max / dt := (one_le_div hdt).mpr hts
    have h2 : (1:ℤ) ≤ ⌊t_max / dt⌋ := by
      rw [Int.le_floor]; exact_mod_cast h1
    obtain ⟨k, hk⟩ : ∃ k, (⌊t_max / dt⌋).toNat = k + 1 :=
      ⟨(⌊t_max / dt⌋).toNat - 1, by omega⟩
    obtain ⟨y, hy⟩ :=
      runLoop_isSome (Q_FLUX_PROFILE q) dt k 0 (initState pf) none
    simp only [solve_marangoni_physics, hk, hy]
    refine ⟨_, rfl, ?_⟩
    simp only [decide_eq_true_eq]
    norm_num
  · intro t k s u ht hT
    simp only [runLoop]
    rw [if_pos ⟨ht, hT⟩]

/-- C1 witness: the amended contract at a concrete B200-class flux with one
time step. -/
theorem solve_returns_and_converged_iff_witness :
    (∃ r, solve_marangoni_physics 1000000 1 1 2 = some r ∧
      (r.converged = true ↔ r.final_T_max < 150)) ∧
    (∀ (t k : ℕ) (s : SolverState) (u : Option ℝ),
      t % 10000 = 0 → 150 < maxT (step (Q_FLUX_PROFILE 1000000) 1 s).1.T_wall →
      runLoop (Q_FLUX_PROFILE 1000000) 1 t (k + 1) s u =
        ((step (Q_FLUX_PROFILE 1000000) 1 s).1,
          some (step (Q_FLUX_PROFILE 1000000) 1 s).2)) :=
  solve_returns_and_converged_iff 1000000 1 1 2 (by norm_num) (by norm_num)
